import Mathlib

/-!
Verification of the terminal Socket.IO supervisor (src/websocket_client.py)
against its natural-language specification.

The development shallowly embeds the program:
* the shared registry `connected_terminals` with its connect/disconnect
  handlers (lines 44-64),
* the cadence of the nested retry loops of `TerminalSocketIOClient.connect`
  (lines 88-102) inside `run_client` (lines 105-118),
* an operational model of the supervisor driven by a schedule of
  suspension-point outcomes,
* the startup validation and two-phase shutdown of `main` (lines 137-179),
* the log-line templates and the URL construction (lines 38-39, 44-102).
-/

/-- The identity of one terminal: the pair of mid and tid that the handlers
store in `connected_terminals` as the two-element list [self.mid, self.tid]
(lines 49-50, 60-61).  Equality is structural, as for Python lists. -/
structure TerminalIdentity where
  mid : String
  tid : String
deriving DecidableEq, Repr

/-- Body of the `connect` event handler (lines 48-50): under the lock,
append [mid, tid] to `connected_terminals` unless it is already present. -/
def registryAdd (x : TerminalIdentity) (l : List TerminalIdentity) :
    List TerminalIdentity :=
  if x ∈ l then l else l ++ [x]

/-- Body of the `disconnect` event handler (lines 59-61): under the lock,
`list.remove` the entry, guarded by a membership test.  Python's
`list.remove` deletes the first occurrence, which is `List.erase`. -/
def registryRemove (x : TerminalIdentity) (l : List TerminalIdentity) :
    List TerminalIdentity :=
  if x ∈ l then l.erase x else l

/-- One registry mutation: a connect-handler or disconnect-handler firing. -/
inductive RegOp where
  | add (x : TerminalIdentity)
  | remove (x : TerminalIdentity)
deriving DecidableEq, Repr

/-- Apply one registry operation. -/
def applyOp (o : RegOp) (l : List TerminalIdentity) : List TerminalIdentity :=
  match o with
  | .add x => registryAdd x l
  | .remove x => registryRemove x l

/-- Apply a sequence of registry operations to a registry state, in order. -/
def applyOps (ops : List RegOp) (l : List TerminalIdentity) :
    List TerminalIdentity :=
  match ops with
  | [] => l
  | o :: rest => applyOps rest (applyOp o l)

theorem registryAdd_of_mem (x : TerminalIdentity) (l : List TerminalIdentity)
    (hx : x ∈ l) : registryAdd x l = l := by
  simp [registryAdd, hx]

theorem mem_registryAdd (x : TerminalIdentity) (l : List TerminalIdentity) :
    x ∈ registryAdd x l := by
  unfold registryAdd
  by_cases hx : x ∈ l <;> simp [hx]

theorem registryAdd_nodup (x : TerminalIdentity) (l : List TerminalIdentity)
    (h : l.Nodup) : (registryAdd x l).Nodup := by
  unfold registryAdd
  by_cases hx : x ∈ l
  · simp [hx, h]
  · simp [hx, List.nodup_append, h]

theorem registryRemove_nodup (x : TerminalIdentity)
    (l : List TerminalIdentity) (h : l.Nodup) :
    (registryRemove x l).Nodup := by
  unfold registryRemove
  by_cases hx : x ∈ l
  · simp [hx, h.erase x]
  · simp [hx, h]

theorem applyOps_nodup (ops : List RegOp) (l : List TerminalIdentity)
    (h : l.Nodup) : (applyOps ops l).Nodup := by
  induction ops generalizing l with
  | nil => exact h
  | cons o rest ih =>
    cases o with
    | add x => exact ih _ (registryAdd_nodup x l h)
    | remove x => exact ih _ (registryRemove_nodup x l h)

/-- Claim C3: starting from the empty registry, any sequence of
connect/disconnect handler firings leaves `connected_terminals` without two
structurally equal entries; moreover the connect handler is a no-op when the
identity is already present and the disconnect handler is a no-op when it is
absent. -/
theorem C3_registry_no_duplicates :
    (∀ ops : List RegOp, (applyOps ops []).Nodup) ∧
    (∀ (x : TerminalIdentity) (l : List TerminalIdentity),
      x ∈ l → registryAdd x l = l) ∧
    (∀ (x : TerminalIdentity) (l : List TerminalIdentity),
      x ∉ l → registryRemove x l = l) := by
  refine ⟨fun ops => applyOps_nodup ops [] List.nodup_nil, ?_, ?_⟩
  · intro x l hx; simp [registryAdd, hx]
  · intro x l hx; simp [registryRemove, hx]

/-- Witness for C3 at concrete inputs. -/
theorem C3_registry_no_duplicates_witness :
    (applyOps [RegOp.add ⟨"m1", "t1"⟩, RegOp.add ⟨"m1", "t1"⟩,
      RegOp.add ⟨"m2", "t2"⟩, RegOp.remove ⟨"m9", "t9"⟩] []).Nodup ∧
    registryAdd ⟨"m1", "t1"⟩ [⟨"m1", "t1"⟩] = [⟨"m1", "t1"⟩] ∧
    registryRemove ⟨"m2", "t2"⟩ [⟨"m1", "t1"⟩] = [⟨"m1", "t1"⟩] :=
  ⟨C3_registry_no_duplicates.1 _,
   C3_registry_no_duplicates.2.1 _ _ (by decide),
   C3_registry_no_duplicates.2.2 _ _ (by decide)⟩

/-- Claim C9: the handlers are idempotent on duplicate-free registries, and
an add of X followed by a remove of X leaves X absent while the membership
of every other identity is unchanged.  The duplicate-freedom hypothesis is
the invariant established by C3. -/
theorem C9_add_remove_algebra (x : TerminalIdentity)
    (l : List TerminalIdentity) (h : l.Nodup) :
    registryAdd x (registryAdd x l) = registryAdd x l ∧
    registryRemove x (registryRemove x l) = registryRemove x l ∧
    x ∉ registryRemove x (registryAdd x l) ∧
    (∀ y : TerminalIdentity, y ≠ x →
      (y ∈ registryRemove x (registryAdd x l) ↔ y ∈ l)) := by
  have hadd : x ∈ registryAdd x l := mem_registryAdd x l
  refine ⟨?_, ?_, ?_, ?_⟩
  · exact registryAdd_of_mem x _ hadd
  · unfold registryRemove
    by_cases hx : x ∈ l
    · simp only [hx, if_true]
      have : x ∉ l.erase x := fun hc => by
        rcases (h.mem_erase_iff).1 hc with ⟨hne, _⟩
        exact hne rfl
      simp [this]
    · simp [hx]
  · unfold registryRemove
    simp only [hadd, if_true]
    intro hc
    have hnd : (registryAdd x l).Nodup := registryAdd_nodup x l h
    rcases (hnd.mem_erase_iff).1 hc with ⟨hne, _⟩
    exact hne rfl
  · intro y hy
    unfold registryRemove
    simp only [hadd, if_true]
    rw [List.mem_erase_of_ne hy]
    unfold registryAdd
    by_cases hx : x ∈ l
    · simp [hx]
    · simp only [hx, if_false, List.mem_append, List.mem_singleton]
      constructor
      · rintro (hyl | rfl)
        · exact hyl
        · exact absurd rfl hy
      · exact fun hyl => Or.inl hyl

/-- Witness for C9 at a concrete registry. -/
theorem C9_add_remove_algebra_witness :
    ([⟨"m0", "t0"⟩] : List TerminalIdentity).Nodup ∧
    (⟨"m1", "t1"⟩ : TerminalIdentity) ∉
      registryRemove ⟨"m1", "t1"⟩ (registryAdd ⟨"m1", "t1"⟩ [⟨"m0", "t0"⟩]) :=
  ⟨by decide,
   (C9_add_remove_algebra ⟨"m1", "t1"⟩ [⟨"m0", "t0"⟩] (by decide)).2.2.1⟩

/-- An externally observable event of the retry machinery: initiating a
connection attempt, holding an established connection until it drops, or one
fixed 5-second backoff sleep. -/
inductive Ev where
  | attempt
  | hold
  | sleep5
deriving DecidableEq, Repr

/-- Cadence of `TerminalSocketIOClient.connect` nested in `run_client`,
driven by the list of attempt outcomes (true = establishment succeeds).
The argument i counts attempts already made inside the current call of
`connect` (the loop index of line 90).  Per the source: a successful attempt
holds the connection until it drops, then breaks; the outer loop then sleeps
5 seconds (line 111) and restarts.  A failed attempt sleeps 5 seconds
(line 100); after the third consecutive failure the inner loop ends and the
outer loop adds its own 5-second sleep (line 111) before restarting. -/
def nestedRetryAux : List Bool → Nat → List Ev
  | [], _ => []
  | b :: rest, i =>
    if b then
      Ev.attempt :: Ev.hold :: Ev.sleep5 :: nestedRetryAux rest 0
    else
      if i + 1 < 3 then
        Ev.attempt :: Ev.sleep5 :: nestedRetryAux rest (i + 1)
      else
        Ev.attempt :: Ev.sleep5 :: Ev.sleep5 :: nestedRetryAux rest 0

/-- Cadence of the program's retry machinery from a fresh `connect` call. -/
def nestedRetry (outcomes : List Bool) : List Ev :=
  nestedRetryAux outcomes 0

/-- Modelled from the spec: straight unbounded retry at a fixed 5-time-unit
interval, the reference behaviour the claim compares the nested loops to —
attempt, then one fixed backoff after the attempt concludes (by failure or by
connection drop), then retry, with no inner attempt ceiling. -/
def unboundedRetry : List Bool → List Ev
  | [] => []
  | b :: rest =>
    if b then
      Ev.attempt :: Ev.hold :: Ev.sleep5 :: unboundedRetry rest
    else
      Ev.attempt :: Ev.sleep5 :: unboundedRetry rest

/-- Number of exhausted inner attempt sequences: positions where a third
consecutive establishment failure ends the inner loop of `connect`. -/
def exhaustedInnerCount : List Bool → Nat → Nat
  | [], _ => 0
  | b :: rest, i =>
    if b then
      exhaustedInnerCount rest 0
    else
      if i + 1 < 3 then
        exhaustedInnerCount rest (i + 1)
      else
        1 + exhaustedInnerCount rest 0

theorem nestedRetryAux_filter_ne_sleep (outcomes : List Bool) (i : Nat) :
    (nestedRetryAux outcomes i).filter (fun e => e != Ev.sleep5) =
      (unboundedRetry outcomes).filter (fun e => e != Ev.sleep5) := by
  induction outcomes generalizing i with
  | nil => rfl
  | cons b rest ih =>
    cases b with
    | true => simp [nestedRetryAux, unboundedRetry, ih]
    | false =>
      by_cases hi : i + 1 < 3 <;>
        simp [nestedRetryAux, unboundedRetry, hi, ih]

theorem nestedRetryAux_sleep_count (outcomes : List Bool) (i : Nat) :
    (nestedRetryAux outcomes i).count Ev.sleep5 =
      (unboundedRetry outcomes).count Ev.sleep5 +
        exhaustedInnerCount outcomes i := by
  induction outcomes generalizing i with
  | nil => rfl
  | cons b rest ih =>
    cases b with
    | true =>
      simp [nestedRetryAux, unboundedRetry, exhaustedInnerCount,
        List.count_cons, ih]
      omega
    | false =>
      by_cases hi : i + 1 < 3 <;>
        simp [nestedRetryAux, unboundedRetry, exhaustedInnerCount, hi,
          List.count_cons, ih] <;> omega

/-- Counterexample to claim C2 as stated: with three consecutive failed
attempts, the nested loops produce two back-to-back 5-second sleeps (inner
backoff of line 100 followed by outer backoff of line 111) before the fourth
attempt, whereas straight unbounded retry produces a single one — a 10-unit
gap, so the traces differ. -/
theorem C2_nested_ne_unbounded :
    nestedRetry [false, false, false] ≠
      unboundedRetry [false, false, false] := by
  decide

/-- Claim C2 (amended): for every sequence of attempt outcomes the nested
retry structure performs exactly the same attempts and connection holds, in
the same order, as straight unbounded retry; the backoff between consecutive
attempts is the same single 5-unit interval except after each exhausted
3-attempt inner sequence, where the nested structure inserts one extra
5-unit sleep (a 10-unit gap): the sleep count exceeds unbounded retry's by
exactly the number of exhausted inner sequences. -/
theorem C2_nested_vs_unbounded_amended (outcomes : List Bool) :
    (nestedRetry outcomes).filter (fun e => e != Ev.sleep5) =
      (unboundedRetry outcomes).filter (fun e => e != Ev.sleep5) ∧
    (nestedRetry outcomes).count Ev.sleep5 =
      (unboundedRetry outcomes).count Ev.sleep5 +
        exhaustedInnerCount outcomes 0 :=
  ⟨nestedRetryAux_filter_ne_sleep outcomes 0,
   nestedRetryAux_sleep_count outcomes 0⟩

/-- Outcome delivered at one suspension point of the supervisor.  At an
establishment await (line 95): ok means the transport accepts, cancel means
a cancellation signal arrives there, anything else is a transport exception.
At the wait on an established connection (line 96): cancel means
cancellation, anything else means the connection dropped.  At a backoff
sleep (lines 100, 111): cancel means cancellation, anything else means the
timer fires. -/
inductive Sig where
  | ok
  | fail
  | drop
  | tick
  | cancel
deriving DecidableEq, Repr

/-- Per-client state: whether the aiohttp session opened in __init__
(line 34) is still open, the `self.connected` flag (line 40), and the
content of the shared `connected_terminals` registry for this run. -/
structure ClientState where
  sessionOpen : Bool
  connected : Bool
  registry : List TerminalIdentity
deriving DecidableEq, Repr

/-- Client state right after `TerminalSocketIOClient.__init__`. -/
def initClientState : ClientState :=
  { sessionOpen := true, connected := false, registry := [] }

/-- Severity of a logging call. -/
inductive Level where
  | info
  | error
deriving DecidableEq, Repr

/-- The log messages of `connect` and `run_client`, by template. -/
inductive Msg where
  | connecting (attempt : Nat)
  | connectedToServer
  | membership (n : Nat)
  | disconnectedFromServer
  | connectionError
  | reconnecting
  | shutdownRequested
deriving DecidableEq, Repr

/-- How one call of `TerminalSocketIOClient.connect` ends: returning
normally, unwinding on a cancellation signal, or still blocked awaiting a
transport event when the schedule of outcomes runs out. -/
inductive ConnStatus where
  | returned
  | cancelled
  | blocked
deriving DecidableEq, Repr

/-- Result of running one call of `connect` against a schedule. -/
structure ConnectResult where
  st : ClientState
  logs : List (Level × Msg)
  trace : List Ev
  rest : List Sig
  status : ConnStatus
deriving DecidableEq, Repr

/-- Close the aiohttp session: the finally block of line 101-102. -/
def closeSession (st : ClientState) : ClientState :=
  { st with sessionOpen := false }

/-- The `connect` event handler (lines 44-53): log, set `self.connected`,
insert the identity into the registry, log the membership. -/
def onConnected (x : TerminalIdentity) (st : ClientState) :
    ClientState × List (Level × Msg) :=
  let reg := registryAdd x st.registry
  ({ st with connected := true, registry := reg },
   [(Level.info, Msg.connectedToServer), (Level.info, Msg.membership reg.length)])

/-- The `disconnect` event handler (lines 55-64): log, clear
`self.connected`, remove the identity from the registry, log the
membership. -/
def onDisconnected (x : TerminalIdentity) (st : ClientState) :
    ClientState × List (Level × Msg) :=
  let reg := registryRemove x st.registry
  ({ st with connected := false, registry := reg },
   [(Level.info, Msg.disconnectedFromServer), (Level.info, Msg.membership reg.length)])

/-- The await on `self.sio.wait()` (line 96) of an established connection:
a cancellation unwinds through the finally (closing the session); any other
event is the connection dropping, which fires the disconnect handler,
returns from wait, breaks the loop, and closes the session in the finally. -/
def connectWait (x : TerminalIdentity) (st : ClientState) :
    List Sig → ConnectResult
  | [] => ⟨st, [], [], [], ConnStatus.blocked⟩
  | s :: rest =>
    if s = Sig.cancel then
      ⟨closeSession st, [], [], rest, ConnStatus.cancelled⟩
    else
      let p := onDisconnected x st
      ⟨closeSession p.1, p.2, [], rest, ConnStatus.returned⟩

/-- The attempt loop of `TerminalSocketIOClient.connect` (lines 88-102),
with i attempts already made in this call.  Each attempt logs the masked
target (line 92), then awaits `self.sio.connect` (line 95): establishment
succeeds only when the schedule says ok AND the aiohttp session is still
open (a closed session raises, which the except of line 98 catches like any
transport error); a cancellation there unwinds through the finally.  On
failure: error log (line 99), 5-second backoff (line 100), next attempt;
after the third failure the loop ends and the finally closes the session. -/
def connectAttempts (x : TerminalIdentity) :
    List Sig → ClientState → Nat → ConnectResult
  | [], st, _ => ⟨st, [], [], [], ConnStatus.blocked⟩
  | s :: rest, st, i =>
    if s = Sig.cancel then
      ⟨closeSession st, [(Level.info, Msg.connecting i)], [Ev.attempt],
        rest, ConnStatus.cancelled⟩
    else if s = Sig.ok ∧ st.sessionOpen then
      let p := onConnected x st
      let r := connectWait x p.1 rest
      ⟨r.st, (Level.info, Msg.connecting i) :: p.2 ++ r.logs,
        Ev.attempt :: Ev.hold :: r.trace, r.rest, r.status⟩
    else
      if i + 1 < 3 then
        let r := connectAttempts x rest st (i + 1)
        ⟨r.st,
          (Level.info, Msg.connecting i) :: (Level.error, Msg.connectionError)
            :: r.logs,
          Ev.attempt :: Ev.sleep5 :: r.trace, r.rest, r.status⟩
      else
        ⟨closeSession st,
          [(Level.info, Msg.connecting i), (Level.error, Msg.connectionError)],
          [Ev.attempt, Ev.sleep5], rest, ConnStatus.returned⟩

/-- One full call of `TerminalSocketIOClient.connect`. -/
def connectCall (x : TerminalIdentity) (sigs : List Sig) (st : ClientState) :
    ConnectResult :=
  connectAttempts x sigs st 0

/-- Result of running `run_client`'s loop for a bounded number of outer
iterations: final state, logs, cadence trace, and whether the loop exited
(it exits only on cancellation; stopped = false means it is still running,
blocked on the schedule or out of iteration fuel). -/
structure RunResult where
  st : ClientState
  logs : List (Level × Msg)
  trace : List Ev
  stopped : Bool
deriving DecidableEq, Repr

/-- The loop of `run_client` (lines 107-118): call `connect`; on a
cancellation unwinding out of it, log the shutdown at info level and break
(lines 112-114); otherwise log the reconnect notice (line 110) and sleep 5
seconds (line 111), where a cancellation during the sleep is likewise caught
and breaks; then loop. -/
def runClientLoop (x : TerminalIdentity) :
    Nat → List Sig → ClientState → RunResult
  | 0, _, st => ⟨st, [], [], false⟩
  | fuel + 1, sigs, st =>
    let c := connectCall x sigs st
    match c.status with
    | ConnStatus.blocked => ⟨c.st, c.logs, c.trace, false⟩
    | ConnStatus.cancelled =>
      ⟨c.st, c.logs ++ [(Level.info, Msg.shutdownRequested)], c.trace, true⟩
    | ConnStatus.returned =>
      match c.rest with
      | [] => ⟨c.st, c.logs ++ [(Level.info, Msg.reconnecting)], c.trace, false⟩
      | s :: rest2 =>
        if s = Sig.cancel then
          ⟨c.st,
            c.logs ++ [(Level.info, Msg.reconnecting),
              (Level.info, Msg.shutdownRequested)],
            c.trace, true⟩
        else
          match runClientLoop x fuel rest2 c.st with
          | r =>
            ⟨r.st, c.logs ++ [(Level.info, Msg.reconnecting)] ++ r.logs,
              c.trace ++ [Ev.sleep5] ++ r.trace, r.stopped⟩

/-- The task body `run_client` (lines 105-118): construct the client (fresh
session, disconnected, and — for a single-terminal run — an empty registry)
and enter the loop. -/
def run_client (x : TerminalIdentity) (fuel : Nat) (sigs : List Sig) :
    RunResult :=
  runClientLoop x fuel sigs initClientState

/-- Claim C4: against a transport stub that fails the first two establishment
attempts and accepts the third, one call of `connect` performs exactly three
attempts with one 5-second backoff after each of the two failures, ends with
the supervisor connected (holding the established connection), and the
registry holds the terminal's identity exactly once. -/
theorem C4_third_attempt_succeeds :
    (connectCall ⟨"101", "T1"⟩ [Sig.fail, Sig.fail, Sig.ok]
        initClientState).trace =
      [Ev.attempt, Ev.sleep5, Ev.attempt, Ev.sleep5, Ev.attempt, Ev.hold] ∧
    (connectCall ⟨"101", "T1"⟩ [Sig.fail, Sig.fail, Sig.ok]
        initClientState).st.connected = true ∧
    (connectCall ⟨"101", "T1"⟩ [Sig.fail, Sig.fail, Sig.ok]
        initClientState).st.registry.count ⟨"101", "T1"⟩ = 1 ∧
    (connectCall ⟨"101", "T1"⟩ [Sig.fail, Sig.fail, Sig.ok]
        initClientState).status = ConnStatus.blocked := by
  decide

/-- Claim C1 is violated by the code: the finally block of `connect` closes
the aiohttp session at the end of the first call, so after a connection is
established once and drops, every attempt of the next outer-loop iteration
fails on the closed session even though the transport stub would accept it
(three ok signals follow the drop), and no new connection or registry entry
is ever produced — the supervisor spins without reconnecting. -/
theorem C1_session_closed_blocks_reconnection :
    (run_client ⟨"101", "T1"⟩ 2
        [Sig.ok, Sig.drop, Sig.tick, Sig.ok, Sig.ok, Sig.ok]).logs.count
      (Level.info, Msg.connectedToServer) = 1 ∧
    (run_client ⟨"101", "T1"⟩ 2
        [Sig.ok, Sig.drop, Sig.tick, Sig.ok, Sig.ok, Sig.ok]).st.sessionOpen
      = false ∧
    (run_client ⟨"101", "T1"⟩ 2
        [Sig.ok, Sig.drop, Sig.tick, Sig.ok, Sig.ok, Sig.ok]).st.connected
      = false ∧
    (run_client ⟨"101", "T1"⟩ 2
        [Sig.ok, Sig.drop, Sig.tick, Sig.ok, Sig.ok, Sig.ok]).st.registry
      = [] ∧
    (run_client ⟨"101", "T1"⟩ 2
        [Sig.ok, Sig.drop, Sig.tick, Sig.ok, Sig.ok, Sig.ok]).logs.count
      (Level.error, Msg.connectionError) = 3 := by
  decide

theorem connectWait_rest_suffix (x : TerminalIdentity) (st : ClientState)
    (sigs : List Sig) : (connectWait x st sigs).rest <:+ sigs := by
  cases sigs with
  | nil => exact List.nil_suffix
  | cons s rest =>
    unfold connectWait
    by_cases hs : s = Sig.cancel <;> simp [hs, List.suffix_cons]

theorem connectAttempts_rest_suffix (x : TerminalIdentity) (sigs : List Sig)
    (st : ClientState) (i : Nat) :
    (connectAttempts x sigs st i).rest <:+ sigs := by
  induction sigs generalizing st i with
  | nil => exact List.nil_suffix
  | cons s rest ih =>
    unfold connectAttempts
    by_cases hs : s = Sig.cancel
    · simp [hs, List.suffix_cons]
    · by_cases hok : s = Sig.ok ∧ st.sessionOpen
      · simp only [hs, if_false, hok, if_true]
        exact (connectWait_rest_suffix x _ rest).trans (List.suffix_cons _ rest)
      · by_cases hi : i + 1 < 3
        · simp only [hs, if_false, hok, hi, if_true]
          exact (ih st (i + 1)).trans (List.suffix_cons _ rest)
        · simp [hs, hok, hi, List.suffix_cons]

theorem connectWait_cancelled_mem (x : TerminalIdentity) (st : ClientState)
    (sigs : List Sig)
    (h : (connectWait x st sigs).status = ConnStatus.cancelled) :
    Sig.cancel ∈ sigs := by
  cases sigs with
  | nil => simp [connectWait] at h
  | cons s rest =>
    by_cases hs : s = Sig.cancel
    · simp [hs]
    · simp [connectWait, hs] at h

theorem connectAttempts_cancelled_mem (x : TerminalIdentity)
    (sigs : List Sig) (st : ClientState) (i : Nat)
    (h : (connectAttempts x sigs st i).status = ConnStatus.cancelled) :
    Sig.cancel ∈ sigs := by
  induction sigs generalizing st i with
  | nil => simp [connectAttempts] at h
  | cons s rest ih =>
    by_cases hs : s = Sig.cancel
    · simp [hs]
    · by_cases hok : s = Sig.ok ∧ st.sessionOpen
      · simp only [connectAttempts, hs, if_false, hok, if_true] at h
        exact List.mem_cons_of_mem s (connectWait_cancelled_mem x _ rest h)
      · by_cases hi : i + 1 < 3
        · simp only [connectAttempts, hs, if_false, hok, hi, if_true] at h
          exact List.mem_cons_of_mem s (ih st (i + 1) h)
        · simp [connectAttempts, hs, hok, hi] at h

/-- A log entry the supervisor may emit: either informational, or the
transport connection-error line — never an error-level cancellation line. -/
def logOk (p : Level × Msg) : Bool :=
  p.1 == Level.info || p.2 == Msg.connectionError

theorem connectWait_logs_ok (x : TerminalIdentity) (st : ClientState)
    (sigs : List Sig) : (connectWait x st sigs).logs.all logOk = true := by
  cases sigs with
  | nil => rfl
  | cons s rest =>
    by_cases hs : s = Sig.cancel <;>
      simp [connectWait, onDisconnected, hs, logOk]

theorem connectAttempts_logs_ok (x : TerminalIdentity) (sigs : List Sig)
    (st : ClientState) (i : Nat) :
    (connectAttempts x sigs st i).logs.all logOk = true := by
  induction sigs generalizing st i with
  | nil => rfl
  | cons s rest ih =>
    by_cases hs : s = Sig.cancel
    · simp [connectAttempts, hs, logOk]
    · by_cases hok : s = Sig.ok ∧ st.sessionOpen
      · simp [connectAttempts, hs, hok, onConnected, logOk,
          List.all_append, connectWait_logs_ok]
      · by_cases hi : i + 1 < 3
        · simp [connectAttempts, hs, hok, hi, logOk, ih]
        · simp [connectAttempts, hs, hok, hi, logOk]

theorem logOk_spec (p : Level × Msg) (h : logOk p = true)
    (he : p.1 = Level.error) : p.2 = Msg.connectionError := by
  unfold logOk at h
  rw [he] at h
  simpa using h

theorem runClientLoop_logs_ok (x : TerminalIdentity) (fuel : Nat)
    (sigs : List Sig) (st : ClientState) :
    (runClientLoop x fuel sigs st).logs.all logOk = true := by
  induction fuel generalizing sigs st with
  | zero => rfl
  | succ fuel ih =>
    have hc := connectAttempts_logs_ok x sigs st 0
    cases hst : (connectAttempts x sigs st 0).status with
    | blocked =>
      simp only [runClientLoop, connectCall, hst]
      exact hc
    | cancelled =>
      simp only [runClientLoop, connectCall, hst, List.all_append]
      rw [hc]
      rfl
    | returned =>
      cases hrest : (connectAttempts x sigs st 0).rest with
      | nil =>
        simp only [runClientLoop, connectCall, hst, hrest, List.all_append]
        rw [hc]
        rfl
      | cons s rest2 =>
        by_cases hs2 : s = Sig.cancel
        · simp only [runClientLoop, connectCall, hst, hrest, hs2, if_true,
            List.all_append]
          rw [hc]
          rfl
        · simp only [runClientLoop, connectCall, hst, hrest, hs2, if_false,
            List.all_append, List.all_cons]
          rw [hc, ih rest2 (connectAttempts x sigs st 0).st]
          rfl

theorem runClientLoop_stopped_cancel (x : TerminalIdentity) (fuel : Nat)
    (sigs : List Sig) (st : ClientState)
    (h : (runClientLoop x fuel sigs st).stopped = true) :
    Sig.cancel ∈ sigs := by
  induction fuel generalizing sigs st with
  | zero => simp [runClientLoop] at h
  | succ fuel ih =>
    cases hst : (connectAttempts x sigs st 0).status with
    | blocked => simp [runClientLoop, connectCall, hst] at h
    | cancelled => exact connectAttempts_cancelled_mem x sigs st 0 hst
    | returned =>
      cases hrest : (connectAttempts x sigs st 0).rest with
      | nil => simp [runClientLoop, connectCall, hst, hrest] at h
      | cons s rest2 =>
        have hsuf : s :: rest2 <:+ sigs := by
          rw [← hrest]
          exact connectAttempts_rest_suffix x sigs st 0
        by_cases hs2 : s = Sig.cancel
        · exact hsuf.subset (by rw [hs2]; exact List.mem_cons_self _ _)
        · simp only [runClientLoop, connectCall, hst, hrest, hs2,
            if_false] at h
          have hm := ih rest2 (connectAttempts x sigs st 0).st
            (by simpa using h)
          exact hsuf.subset (List.mem_cons_of_mem s hm)

theorem runClientLoop_stopped_last_log (x : TerminalIdentity) (fuel : Nat)
    (sigs : List Sig) (st : ClientState)
    (h : (runClientLoop x fuel sigs st).stopped = true) :
    (runClientLoop x fuel sigs st).logs.getLast? =
      some (Level.info, Msg.shutdownRequested) := by
  induction fuel generalizing sigs st with
  | zero => simp [runClientLoop] at h
  | succ fuel ih =>
    cases hst : (connectAttempts x sigs st 0).status with
    | blocked => simp [runClientLoop, connectCall, hst] at h
    | cancelled =>
      simp only [runClientLoop, connectCall, hst]
      rw [List.getLast?_append_of_ne_nil _ (by simp)]
      rfl
    | returned =>
      cases hrest : (connectAttempts x sigs st 0).rest with
      | nil => simp [runClientLoop, connectCall, hst, hrest] at h
      | cons s rest2 =>
        by_cases hs2 : s = Sig.cancel
        · simp only [runClientLoop, connectCall, hst, hrest, hs2, if_true]
          rw [List.getLast?_append_of_ne_nil _ (by simp)]
          rfl
        · simp only [runClientLoop, connectCall, hst, hrest, hs2,
            if_false] at h ⊢
          have hstop : (runClientLoop x fuel rest2
              (connectAttempts x sigs st 0).st).stopped = true := by
            simpa using h
          have hlast := ih rest2 (connectAttempts x sigs st 0).st hstop
          have hne : (runClientLoop x fuel rest2
              (connectAttempts x sigs st 0).st).logs ≠ [] := by
            intro hnil
            rw [hnil] at hlast
            simp at hlast
          rw [List.getLast?_append_of_ne_nil _ hne]
          exact hlast


/-- Claim C5: over every schedule of suspension-point outcomes and any
iteration bound, the `run_client` loop exits only when a cancellation signal
arrives (it never terminates on transport failures alone); when it exits,
the final log line is the info-level shutdown notice — no further connection
attempt is logged after the cancellation — and every error-level log line is
a transport connection error, so the cancellation is never logged as an
error. -/
theorem C5_cancellation_only_exit (x : TerminalIdentity) (fuel : Nat)
    (sigs : List Sig) :
    ((run_client x fuel sigs).stopped = true → Sig.cancel ∈ sigs) ∧
    (Sig.cancel ∉ sigs → (run_client x fuel sigs).stopped = false) ∧
    (∀ p ∈ (run_client x fuel sigs).logs,
      p.1 = Level.error → p.2 = Msg.connectionError) ∧
    ((run_client x fuel sigs).stopped = true →
      (run_client x fuel sigs).logs.getLast? =
        some (Level.info, Msg.shutdownRequested)) := by
  refine ⟨runClientLoop_stopped_cancel x fuel sigs initClientState, ?_, ?_,
    runClientLoop_stopped_last_log x fuel sigs initClientState⟩
  · intro hn
    cases hstop : (run_client x fuel sigs).stopped with
    | false => rfl
    | true =>
      exact absurd
        (runClientLoop_stopped_cancel x fuel sigs initClientState hstop) hn
  · intro p hp he
    have hall := runClientLoop_logs_ok x fuel sigs initClientState
    have := List.all_eq_true.mp hall p hp
    exact logOk_spec p (by simpa using this) he

/-- Witness for C5 at concrete schedules. -/
theorem C5_cancellation_only_exit_witness :
    Sig.cancel ∈ ([Sig.cancel] : List Sig) ∧
    (run_client ⟨"m", "t"⟩ 1 [Sig.fail, Sig.fail, Sig.fail, Sig.tick]).stopped
      = false ∧
    ((Level.error, Msg.connectionError) : Level × Msg).2
      = Msg.connectionError ∧
    (run_client ⟨"m", "t"⟩ 1 [Sig.cancel]).logs.getLast? =
      some (Level.info, Msg.shutdownRequested) :=
  ⟨(C5_cancellation_only_exit ⟨"m", "t"⟩ 1 [Sig.cancel]).1 (by decide),
   (C5_cancellation_only_exit ⟨"m", "t"⟩ 1
      [Sig.fail, Sig.fail, Sig.fail, Sig.tick]).2.1 (by decide),
   (C5_cancellation_only_exit ⟨"m", "t"⟩ 1 [Sig.fail]).2.2.1
      (Level.error, Msg.connectionError) (by decide) (by decide),
   (C5_cancellation_only_exit ⟨"m", "t"⟩ 1 [Sig.cancel]).2.2.2 (by decide)⟩

/-- Collected outcome of one task under gather with return_exceptions=True
(line 172): a normal return value, the expected cancellation
acknowledgment, or some other exception (abstract payload). -/
inductive TaskOutcome where
  | value
  | cancelledAck
  | error (e : Nat)
deriving DecidableEq, Repr

/-- Messages logged by `main` (lines 137-179). -/
inductive MainMsg where
  | tokenMissing
  | rosterError (e : Nat)
  | noTerminals
  | starting (n : Nat)
  | shuttingDown
  | taskFailed (i : Nat) (e : Nat)
  | allDisconnected
deriving DecidableEq, Repr

/-- The per-outcome error logging of lines 175-177: enumerate the collected
results starting at index i; a result that is an exception and not the
cancellation acknowledgment is logged as a shutdown failure of that task;
every other result is passed over. -/
def logOutcomes (i : Nat) (outcomes : List TaskOutcome) :
    List (Level × MainMsg) :=
  match outcomes with
  | [] => []
  | o :: rest =>
    (match o with
      | TaskOutcome.error e => [(Level.error, MainMsg.taskFailed i e)]
      | _ => []) ++ logOutcomes (i + 1) rest

/-- Phase-2 shutdown (lines 167-179): after cancelling every task, gather
with return_exceptions=True collects every task's outcome into `results`
(the identity on the outcome list — no outcome is dropped and no exception
propagates), each unexpected error is logged per task, and the completion
notice is the final log line. -/
def shutdownPhase2 (outcomes : List TaskOutcome) :
    List TaskOutcome × List (Level × MainMsg) :=
  (outcomes, logOutcomes 0 outcomes ++ [(Level.info, MainMsg.allDisconnected)])

/-- A task spawned by `main`: the status reporter (line 153) or one
supervisor per roster row (line 157). -/
inductive MainTask where
  | statusTask
  | supervisor (x : TerminalIdentity)
deriving DecidableEq, Repr

/-- What happens while the spawned tasks run (the gather of line 163):
either the run is interrupted and phase-2 shutdown collects the given
outcomes (lines 164-179), or some task raises a non-cancellation error,
which the bare gather propagates out of `main`. -/
inductive Phase1 where
  | interrupted (outcomes : List TaskOutcome)
  | taskError (e : Nat)
deriving DecidableEq, Repr

/-- How the `main` coroutine ends: returning normally (asyncio.run then
finishes and the process exits with status 0) or propagating an
exception. -/
inductive MainExit where
  | normalReturn
  | raised (e : Nat)
deriving DecidableEq, Repr

/-- Exit status of the process for a given ending of `main`: the module has
no sys.exit call, so a normal return of `main` ends the script with status
0, and a propagated exception ends it abnormally. -/
def processExitCode (m : MainExit) : Nat :=
  match m with
  | MainExit.normalReturn => 0
  | MainExit.raised _ => 1

/-- Result of `main`: its log lines, the tasks it created, how it ended. -/
structure MainResult where
  logs : List (Level × MainMsg)
  tasks : List MainTask
  exit : MainExit
deriving DecidableEq, Repr

/-- The `main` coroutine (lines 137-179), named mainCoroutine since Lean
reserves the name main for executables.  Token check first (lines
138-141, where Python's falsiness treats an empty string like an absent
variable), then the roster read (lines 142-147, any exception is caught and
reported), then the emptiness check (lines 148-150); each failure logs an
error and returns before any task is created.  Otherwise the status task
and one supervisor per roster row are created and awaited; an interrupt
triggers phase-2 shutdown, and a non-cancellation task error propagates. -/
def mainCoroutine (token : Option String) (roster : Except Nat (List TerminalIdentity))
    (phase1 : Phase1) : MainResult :=
  match token with
  | none => ⟨[(Level.error, MainMsg.tokenMissing)], [], MainExit.normalReturn⟩
  | some tok =>
    if tok.isEmpty then
      ⟨[(Level.error, MainMsg.tokenMissing)], [], MainExit.normalReturn⟩
    else
      match roster with
      | Except.error e =>
        ⟨[(Level.error, MainMsg.rosterError e)], [], MainExit.normalReturn⟩
      | Except.ok terminals =>
        if terminals.isEmpty then
          ⟨[(Level.error, MainMsg.noTerminals)], [], MainExit.normalReturn⟩
        else
          let tasks := MainTask.statusTask ::
            terminals.map MainTask.supervisor
          match phase1 with
          | Phase1.taskError e =>
            ⟨[(Level.info, MainMsg.starting terminals.length)], tasks,
              MainExit.raised e⟩
          | Phase1.interrupted outcomes =>
            ⟨[(Level.info, MainMsg.starting terminals.length),
                (Level.info, MainMsg.shuttingDown)] ++
                (shutdownPhase2 outcomes).2,
              tasks, MainExit.normalReturn⟩

/-- Whether a log template of `main` interpolates a terminal identity: none
does — main's messages carry only counts, task indices and exception
payloads (lines 140, 146, 149, 151, 165, 177, 179); identity-prefixed lines
are emitted only from inside supervisor tasks. -/
def mentionsIdentity (m : MainMsg) : Bool :=
  match m with
  | MainMsg.tokenMissing => false
  | MainMsg.rosterError _ => false
  | MainMsg.noTerminals => false
  | MainMsg.starting _ => false
  | MainMsg.shuttingDown => false
  | MainMsg.taskFailed _ _ => false
  | MainMsg.allDisconnected => false

theorem mentionsIdentity_false (m : MainMsg) : mentionsIdentity m = false := by
  cases m <;> rfl

/-- A startup-fatal condition of lines 138-150: the token is absent (or
empty, which Python's truthiness test treats the same), the roster file is
unreadable, or the roster has zero rows. -/
def startupFatal (token : Option String)
    (roster : Except Nat (List TerminalIdentity)) : Prop :=
  token = none ∨ (∃ tok, token = some tok ∧ tok.isEmpty) ∨
    (∃ e, roster = Except.error e) ∨ roster = Except.ok []

theorem mainCoroutine_fatal (token : Option String)
    (roster : Except Nat (List TerminalIdentity)) (phase1 : Phase1)
    (h : startupFatal token roster) :
    (mainCoroutine token roster phase1).tasks = [] ∧
    (mainCoroutine token roster phase1).exit = MainExit.normalReturn := by
  rcases h with rfl | ⟨tok, rfl, hemp⟩ | ⟨e, rfl⟩ | rfl
  · exact ⟨rfl, rfl⟩
  · simp [mainCoroutine, hemp]
  · cases token with
    | none => exact ⟨rfl, rfl⟩
    | some tok =>
      by_cases hemp : tok.isEmpty <;> simp [mainCoroutine, hemp]
  · cases token with
    | none => exact ⟨rfl, rfl⟩
    | some tok =>
      by_cases hemp : tok.isEmpty <;> simp [mainCoroutine, hemp]

theorem logOutcomes_mem (outcomes : List TaskOutcome) (i j e : Nat)
    (h : outcomes[j]? = some (TaskOutcome.error e)) :
    (Level.error, MainMsg.taskFailed (i + j) e) ∈ logOutcomes i outcomes := by
  induction outcomes generalizing i j with
  | nil => simp at h
  | cons o rest ih =>
    cases j with
    | zero =>
      simp only [List.getElem?_cons_zero, Option.some_inj] at h
      subst h
      simp [logOutcomes]
    | succ j =>
      simp only [List.getElem?_cons_succ] at h
      have h2 := ih (i + 1) j h
      have harith : i + (j + 1) = i + 1 + j := by omega
      rw [harith]
      unfold logOutcomes
      exact List.mem_append_right _ h2

/-- Claim C6: phase-2 shutdown collects every task's outcome — the gather
with return_exceptions=True returns exactly the full outcome list, with no
outcome dropped and no exception propagating; every non-cancellation error
among them is logged as a shutdown failure of its task while the remaining
outcomes are still collected; and shutdown completes (the final completion
log line) only after all of them. -/
theorem C6_shutdown_collects_every_outcome (outcomes : List TaskOutcome) :
    (shutdownPhase2 outcomes).1 = outcomes ∧
    (∀ i e, outcomes[i]? = some (TaskOutcome.error e) →
      (Level.error, MainMsg.taskFailed i e) ∈ (shutdownPhase2 outcomes).2) ∧
    (shutdownPhase2 outcomes).2.getLast? =
      some (Level.info, MainMsg.allDisconnected) := by
  refine ⟨rfl, ?_, ?_⟩
  · intro i e h
    have := logOutcomes_mem outcomes 0 i e h
    rw [Nat.zero_add] at this
    exact List.mem_append_left _ this
  · rw [shutdownPhase2, List.getLast?_append_of_ne_nil _ (by simp)]
    rfl

/-- Witness for C6 at a concrete outcome list with an error in the middle. -/
theorem C6_shutdown_collects_every_outcome_witness :
    (shutdownPhase2 [TaskOutcome.cancelledAck, TaskOutcome.error 7,
        TaskOutcome.cancelledAck]).1 =
      [TaskOutcome.cancelledAck, TaskOutcome.error 7,
        TaskOutcome.cancelledAck] ∧
    (Level.error, MainMsg.taskFailed 1 7) ∈
      (shutdownPhase2 [TaskOutcome.cancelledAck, TaskOutcome.error 7,
        TaskOutcome.cancelledAck]).2 :=
  ⟨(C6_shutdown_collects_every_outcome _).1,
   (C6_shutdown_collects_every_outcome _).2.1 1 7 (by decide)⟩

/-- Claim C7: on a missing (or empty) token, an unreadable roster, or a
roster with zero rows, `main` logs the condition and returns before the
status task or any supervisor task is created, and no log line it emits
references any terminal identity (its fatal templates carry no mid/tid). -/
theorem C7_fatal_startup_spawns_nothing (token : Option String)
    (roster : Except Nat (List TerminalIdentity)) (phase1 : Phase1)
    (h : startupFatal token roster) :
    (mainCoroutine token roster phase1).tasks = [] ∧
    ∀ p ∈ (mainCoroutine token roster phase1).logs,
      mentionsIdentity p.2 = false :=
  ⟨(mainCoroutine_fatal token roster phase1 h).1,
   fun p _ => mentionsIdentity_false p.2⟩

/-- Witness for C7 with the token absent. -/
theorem C7_fatal_startup_spawns_nothing_witness :
    (mainCoroutine none (Except.ok [⟨"m", "t"⟩])
        (Phase1.taskError 0)).tasks = [] :=
  (C7_fatal_startup_spawns_nothing none (Except.ok [⟨"m", "t"⟩])
    (Phase1.taskError 0) (Or.inl rfl)).1

/-- Claim C10: on every startup-fatal condition `main` returns normally
after logging, so the process exit status is 0 — the same status as a run
that spawns its tasks and then shuts down gracefully on an interrupt. -/
theorem C10_fatal_exit_code_zero (token : Option String)
    (roster : Except Nat (List TerminalIdentity)) (phase1 : Phase1)
    (outcomes : List TaskOutcome) (h : startupFatal token roster) :
    (mainCoroutine token roster phase1).exit = MainExit.normalReturn ∧
    processExitCode (mainCoroutine token roster phase1).exit = 0 ∧
    processExitCode (mainCoroutine (some ("tok")) (Except.ok [⟨"m", "t"⟩])
        (Phase1.interrupted outcomes)).exit = 0 ∧
    (mainCoroutine token roster phase1).exit =
      (mainCoroutine (some ("tok")) (Except.ok [⟨"m", "t"⟩])
        (Phase1.interrupted outcomes)).exit := by
  have hexit := (mainCoroutine_fatal token roster phase1 h).2
  refine ⟨hexit, ?_, rfl, ?_⟩
  · rw [hexit]; rfl
  · rw [hexit]; rfl

/-- Witness for C10 with an unreadable roster. -/
theorem C10_fatal_exit_code_zero_witness :
    processExitCode (mainCoroutine (some ("tok")) (Except.error 3)
        (Phase1.taskError 0)).exit = 0 :=
  (C10_fatal_exit_code_zero (some ("tok")) (Except.error 3) (Phase1.taskError 0)
    [] (Or.inr (Or.inr (Or.inl ⟨3, rfl⟩)))).2.1

/-- One piece of an interpolated string (an f-string segment): literal
text, the mid or tid field, the token, the redaction mask of line 39, or an
opaque runtime value (exception text, event payload, registry contents,
counts — values the program never builds from the token). -/
inductive Seg where
  | lit (s : String)
  | midP
  | tidP
  | tokenP
  | maskP
  | dynP
deriving DecidableEq, Repr

/-- The real connection target of line 38: the only string the token is
interpolated into. -/
def url : List Seg :=
  [Seg.lit ("wss://api-terminal-gateway.tillpayments.dev/socket.io/?tid="),
   Seg.tidP, Seg.lit ("&mid="), Seg.midP, Seg.lit ("&token="),
   Seg.tokenP]

/-- The redacted connection target of line 39: identical to line 38 except
that the token segment is the three-asterisk mask. -/
def masked_url : List Seg :=
  [Seg.lit ("wss://api-terminal-gateway.tillpayments.dev/socket.io/?tid="),
   Seg.tidP, Seg.lit ("&mid="), Seg.midP, Seg.lit ("&token="),
   Seg.maskP]

/-- The argument of the transport connection call of line 95: the real URL
with the token. -/
def sioConnectArg : List Seg := url

/-- Redact the token segment, as line 39 does relative to line 38. -/
def maskToken (p : Seg) : Seg :=
  if p = Seg.tokenP then Seg.maskP else p

/-- The identity prefix every per-terminal log line starts with. -/
def idPrefix : List Seg :=
  [Seg.lit ("[MID:"), Seg.midP, Seg.lit (" TID:"), Seg.tidP,
   Seg.lit ("] ")]

/-- The template of the connection-attempt log of lines 92-94: the redacted
URL, never the real one, is interpolated. -/
def connectingLogLine : List Seg :=
  idPrefix ++ [Seg.lit ("Connecting to ")] ++ masked_url ++
    [Seg.lit (" (attempt "), Seg.dynP, Seg.lit (")...")]

/-- Every logging call in src/websocket_client.py, by template: the handler
logs of lines 46, 51-53, 57, 62-64, 68, 72, 77-79, 84-86, the supervisor
logs of lines 92-94, 99, 110, 113, 116, 117, the reporter logs of lines
128-130, 132, 134, and the coordinator logs of lines 140, 146, 149, 151,
165, 177, 179. -/
def allLogTemplates : List (List Seg) :=
  [idPrefix ++ [Seg.lit ("Connected to server")],
   [Seg.lit ("Connected terminals: "), Seg.dynP, Seg.lit (" (Total: "),
    Seg.dynP, Seg.lit (")")],
   idPrefix ++ [Seg.lit ("Disconnected from server")],
   idPrefix ++ [Seg.lit ("Event: "), Seg.dynP, Seg.lit (", Data: "),
     Seg.dynP],
   idPrefix ++ [Seg.lit ("Message: "), Seg.dynP],
   idPrefix ++ [Seg.lit ("PING received - Connected terminals: "),
     Seg.dynP, Seg.lit (" (Total: "), Seg.dynP, Seg.lit (")")],
   idPrefix ++ [Seg.lit ("PONG sent - Connected terminals: "), Seg.dynP,
     Seg.lit (" (Total: "), Seg.dynP, Seg.lit (")")],
   connectingLogLine,
   idPrefix ++ [Seg.lit ("Connection error: "), Seg.dynP],
   idPrefix ++ [Seg.lit ("Reconnecting in 5 seconds...")],
   idPrefix ++ [Seg.lit ("Shutdown requested")],
   idPrefix ++ [Seg.lit ("Error: "), Seg.dynP],
   idPrefix ++ [Seg.lit ("Retrying in 5 seconds...")],
   [Seg.lit ("STATUS: "), Seg.dynP,
    Seg.lit (" terminals connected: "), Seg.dynP],
   [Seg.lit ("STATUS: No terminals connected")],
   [Seg.lit ("Status monitoring stopped")],
   [Seg.lit ("Error: TOKEN not found in .env file")],
   [Seg.lit ("Error reading terminals.csv: "), Seg.dynP],
   [Seg.lit ("No terminals found in CSV file")],
   [Seg.lit ("Starting Socket.IO clients for "), Seg.dynP,
    Seg.lit (" terminals...")],
   [Seg.lit ("Shutting down gracefully...")],
   [Seg.lit ("Task "), Seg.dynP, Seg.lit (" failed during shutdown: "),
    Seg.dynP],
   [Seg.lit ("All clients disconnected successfully")]]

/-- Claim C8: no log template of the program interpolates the token — in
particular the logged connection target is the masked URL, which is exactly
the real URL with the token segment replaced by the mask — while the real
URL containing the token is what the transport connection call receives. -/
theorem C8_token_never_logged :
    (∀ t ∈ allLogTemplates, Seg.tokenP ∉ t) ∧
    masked_url = url.map maskToken ∧
    connectingLogLine ∈ allLogTemplates ∧
    Seg.tokenP ∈ sioConnectArg := by
  refine ⟨?_, by decide, by decide, by decide⟩
  intro t ht
  fin_cases ht <;> decide

/-- Witness for C8 at the connection-attempt template. -/
theorem C8_token_never_logged_witness :
    Seg.tokenP ∉ connectingLogLine :=
  C8_token_never_logged.1 connectingLogLine C8_token_never_logged.2.2.1
